import Mathlib

/-!
Verification model of the `python-patchwork` repository
(`patchwork/connection.py` and `patchwork/expect.py`).

Python code is shallowly embedded: Python strings become `String`,
`None`-able values become `Option`, raised exceptions become `Except`
errors, and the wall-clock-bounded polling loops become fuel-bounded
recursion where one unit of fuel is one loop iteration (one "tick").
I/O collaborators (the paramiko channel, the sftp channel, subprocess
calls) are parameters of the model: a channel is the list of results its
`recv`/`read` calls return, tick by tick, and a fallible external step is
an `Except` value describing whether it raised.
-/

namespace Patchwork

/-! ## Python regular expressions (the subset patchwork uses)

`expect.py` matches with `re.match`, which anchors at the *start* of the
string and succeeds when the pattern matches some prefix.  `Expect.expect`
compiles `".*" + strexp + ".*"` with `re.DOTALL`, so the constructs needed
are literal characters, `.` (matching any character under DOTALL) and `*`.
We model them with Brzozowski derivatives. -/

inductive Regex where
  | emptyR : Regex
  | eps : Regex
  | chr : Char → Regex
  | anyChar : Regex
  | cat : Regex → Regex → Regex
  | alt : Regex → Regex → Regex
  | star : Regex → Regex
deriving Repr, DecidableEq

/-- Does the regex accept the empty string? -/
def Regex.nullable : Regex → Bool
  | .emptyR => false
  | .eps => true
  | .chr _ => false
  | .anyChar => false
  | .cat a b => a.nullable && b.nullable
  | .alt a b => a.nullable || b.nullable
  | .star _ => true

/-- Brzozowski derivative of the regex by one character. -/
def Regex.deriv : Regex → Char → Regex
  | .emptyR, _ => .emptyR
  | .eps, _ => .emptyR
  | .chr c, x => if c = x then .eps else .emptyR
  | .anyChar, _ => .eps
  | .cat a b, x =>
      if a.nullable then .alt (.cat (a.deriv x) b) (b.deriv x)
      else .cat (a.deriv x) b
  | .alt a b, x => .alt (a.deriv x) (b.deriv x)
  | .star a, x => .cat (a.deriv x) (.star a)

/-- Python `re.match(r, s)` truthiness: `r` matches some prefix of `s`
(the match is anchored at position 0). -/
def pymatchL (r : Regex) : List Char → Bool
  | [] => r.nullable
  | c :: rest => r.nullable || pymatchL (r.deriv c) rest

/-- `bool(re.match(r, s))` on a Python string. -/
def reMatch (r : Regex) (s : String) : Bool :=
  pymatchL r s.data

/-- A literal pattern such as `"foo"` (no metacharacters). -/
def lit (s : String) : Regex :=
  s.data.foldr (fun c acc => .cat (.chr c) acc) .eps

/-- `.*` under `re.DOTALL`. -/
def dotStar : Regex := .star .anyChar

/-! ## `Expect.expect_list` (`expect.py` lines 19–47)

The channel is modelled by the tick-indexed list of what
`connection.channel.recv(16384)` produces: `none` embeds the
`socket.timeout` ("no more data this tick"), `some s` embeds received
data `s`.  Ticks past the end of the list yield `none`.  The result is
`.ok v` for a successful return of `v` and `.error buf` for
`raise ExpectFailed(buf)`. -/

/-- The inner `for (regexp, retvalue) in regexp_list` loop: first pattern
that `re.match`es the accumulated buffer wins. -/
def findFirstMatch {α : Type} (regexp_list : List (Regex × α)) (result : String) :
    Option α :=
  match regexp_list with
  | [] => none
  | (r, v) :: rest => if reMatch r result then some v else findFirstMatch rest result

/-- The `while count < timeout` loop of `expect_list`, with `fuel` the
remaining iterations (`timeout - count`) and `count` the current tick. -/
def expectListFrom {α : Type} (ticks : List (Option String))
    (regexp_list : List (Regex × α)) : Nat → Nat → String → Except String α
  | _, 0, result => .error result
  | count, fuel + 1, result =>
    let result := result ++ ((ticks.getD count none).getD "")
    match findFirstMatch regexp_list result with
    | some v => .ok v
    | none => expectListFrom ticks regexp_list (count + 1) fuel result

/-- `Expect.expect_list(connection, regexp_list, timeout)`. -/
def expect_list {α : Type} (ticks : List (Option String))
    (regexp_list : List (Regex × α)) (timeout : Nat) : Except String α :=
  expectListFrom ticks regexp_list 0 timeout ""

/-- Concatenation of everything received in ticks `start, …, start+n-1`
(a `socket.timeout` tick contributes `""`). -/
def accumFrom (ticks : List (Option String)) (start : Nat) : Nat → String
  | 0 => ""
  | n + 1 => ((ticks.getD start none).getD "") ++ accumFrom ticks (start + 1) n

/-! ## `Connection.recv_exit_status` (`connection.py` lines 229–282)

The remote stdout stream is the per-iteration list of what the loop body
observes: `.noData` embeds `stdout.read` raising `socket.timeout`
(sleep and `continue`, skipping the exit-status check), and
`.data s ready` embeds a successful read of `s` followed by the
`exit_status_ready()` check, where `ready = some st` means the remote
process has posted exit status `st`.  Iterations past the end of the list
observe `.noData`.  The wall-clock bound `while time.time() <= timeout`
becomes a fuel of `timeout` loop iterations.  The function returns the
pair (Python return value `status`, the `self.last_stdout` buffer); a
timeout leaves `status = None`, embedded as `none`. -/

inductive ReadEvent where
  | noData : ReadEvent
  | data : String → Option Int → ReadEvent
deriving Repr, DecidableEq

/-- Bytes a loop iteration appended to `last_stdout` (`""` on `socket.timeout`). -/
def ReadEvent.bytes : ReadEvent → String
  | .noData => ""
  | .data s _ => s

/-- The exit status visible to `exit_status_ready()` during the iteration
(`none` also when the read raised, since the check is then skipped). -/
def ReadEvent.status : ReadEvent → Option Int
  | .noData => none
  | .data _ r => r

/-- The `while time.time() <= timeout` loop, at iteration `i` with `fuel`
iterations left and accumulated stdout `acc`. -/
def recvExitLoop (events : List ReadEvent) : Nat → Nat → String → Option Int × String
  | _, 0, acc => (none, acc)
  | i, fuel + 1, acc =>
    match events.getD i .noData with
    | .noData => recvExitLoop events (i + 1) fuel acc
    | .data s ready =>
      match ready with
      | some st => (some st, acc ++ s)
      | none => recvExitLoop events (i + 1) fuel (acc ++ s)

/-- `Connection.recv_exit_status(command, timeout)`: the returned status
(`none` = Python `None`, the "unknown" outcome) and the final
`last_stdout` buffer. -/
def recv_exit_status (events : List ReadEvent) (timeout : Nat) : Option Int × String :=
  recvExitLoop events 0 timeout ""

/-- Stdout accumulated by the first `n` loop iterations. -/
def stdoutFrom (events : List ReadEvent) (start : Nat) : Nat → String
  | 0 => ""
  | n + 1 => (events.getD start .noData).bytes ++ stdoutFrom events (start + 1) n

/-! ## `Connection.__init__` (`connection.py` lines 30–99)

The `instance` argument is a string or a dict; the recognized dict keys
become `Option` fields.  A Python attribute that a code path never sets
(`self.hostname` when neither key pair is present) is embedded as an
`Option` field left at `none`. -/

structure InstanceParams where
  private_hostname : Option String
  public_hostname : Option String
  public_dns_name : Option String
  private_ip_address : Option String
  username : Option String
  key_filename : Option String
deriving Repr, DecidableEq

inductive InstanceArg where
  | str : String → InstanceArg
  | dict : InstanceParams → InstanceArg
deriving Repr, DecidableEq

structure Connection where
  parameters : InstanceParams
  hostname : Option String
  private_hostname : Option String
  public_hostname : Option String
  username : String
  key_filename : Option String
  output_shell : Bool
  disable_rpyc : Bool
  timeout : Nat
  last_command : String
  last_stdout : String
  last_stderr : String
deriving Repr, DecidableEq

/-- `Connection.__init__(instance, username, key_filename, timeout,
output_shell, disable_rpyc)`.  Total: no code path raises. -/
def connectionInit (inst : InstanceArg) (username : String)
    (key_filename : Option String) (timeout : Nat) (output_shell : Bool)
    (disable_rpyc : Bool) : Connection :=
  let parameters : InstanceParams :=
    match inst with
    | .str h =>
      { private_hostname := some h, public_hostname := some h,
        public_dns_name := none, private_ip_address := none,
        username := none, key_filename := none }
    | .dict p => p
  let hosts : Option String × Option String × Option String :=
    match parameters.private_hostname, parameters.public_hostname with
    | some priv, some pub => (some priv, some priv, some pub)
    | _, _ =>
      match parameters.public_dns_name, parameters.private_ip_address with
      | some dns, some ip =>
        if dns ≠ "" then (some dns, some dns, some dns)
        else (some ip, some ip, some ip)
      | _, _ => (none, none, none)
  { parameters := parameters
    hostname := hosts.1
    private_hostname := hosts.2.1
    public_hostname := hosts.2.2
    username := parameters.username.getD username
    key_filename :=
      match parameters.key_filename with
      | some v => some v
      | none => key_filename
    output_shell := output_shell
    disable_rpyc := disable_rpyc
    timeout := timeout
    last_command := ""
    last_stdout := ""
    last_stderr := "" }

/-- The `cli` factory's `client.connect(hostname=self.private_hostname, …)`:
reading `self.private_hostname` when `__init__` never set it raises
`AttributeError` (embedded as `.error`); otherwise the connect target is
that hostname. -/
def cliConnectTarget (c : Connection) : Except String String :=
  match c.private_hostname with
  | some h => .ok h
  | none => .error "AttributeError: private_hostname"

/-! ## The lazy resource cache (`lazyprop`, lines 16–23, and the five
lazy properties `cli`, `channel`, `sftp`, `pbm`, `rpyc`)

`lazyprop` stores the factory's value in `_lazy_<name>` on first access
and returns the stored value afterwards.  Created collaborator objects
(paramiko client, shell channel, sftp channel, plumbum machine, rpyc
handle) are identified by the `Nat` id they receive from a fresh-id
counter, so "the identical cached instance" is "the same id".  `pbm` and
`rpyc` can evaluate to Python `None`, so their cache slots hold an
`Option (Option Nat)`: the outer layer is "attribute set?", the inner the
value.

The fallible external steps of the `rpyc` bootstrap (lines 137–185) are
an environment of `Except` values, in the order the body runs them. -/

deriving instance DecidableEq for Except

structure BootstrapEnv where
  /-- `subprocess.check_call(["tar", "-cz", …])` -/
  tar : Except String Unit
  /-- `self.sftp.put(rnd_filename, rnd_dest_filename)` -/
  put : Except String Unit
  /-- `self.recv_exit_status("tar -zxvf …", 10)` — the `Option Int` result
  (`none` = timeout) is discarded by the caller. -/
  extract : Except String (Option Int)
  /-- `self.exec_command("echo \"…\" | PYTHONPATH=… python", get_pty=True)` -/
  launch : Except String Unit
  /-- `self.recv_exit_status("while [ ! -f … ]; do sleep 1; done", 10)` -/
  poll : Except String (Option Int)
  /-- `self.sftp.get(pid_filename, pid_dest_filename)` -/
  fetch : Except String Unit
  /-- `int(pid_fd.read())` -/
  parsePort : Except String Int
  /-- `rpyc.classic.ssh_connect(self.pbm, port)`: the bridge handle's id. -/
  sshConnect : Except String Unit
deriving Repr, DecidableEq

structure ConnCache where
  disable_rpyc : Bool
  env : BootstrapEnv
  lazy_cli : Option Nat
  lazy_channel : Option Nat
  lazy_sftp : Option Nat
  lazy_pbm : Option (Option Nat)
  lazy_rpyc : Option (Option Nat)
  nextId : Nat
deriving Repr, DecidableEq

/-- A fresh `Connection`'s cache: no `_lazy_*` attribute exists yet. -/
def initCache (disable_rpyc : Bool) (env : BootstrapEnv) : ConnCache :=
  { disable_rpyc := disable_rpyc, env := env,
    lazy_cli := none, lazy_channel := none, lazy_sftp := none,
    lazy_pbm := none, lazy_rpyc := none, nextId := 0 }

/-- `self.cli`: connect a fresh `paramiko.SSHClient` on first access. -/
def getCli (c : ConnCache) : Nat × ConnCache :=
  match c.lazy_cli with
  | some v => (v, c)
  | none => (c.nextId, { c with lazy_cli := some c.nextId, nextId := c.nextId + 1 })

/-- `self.channel`: `self.cli.invoke_shell(…)` on first access (reading
`self.cli` runs the `cli` factory if it is not cached yet). -/
def getChannel (c : ConnCache) : Nat × ConnCache :=
  match c.lazy_channel with
  | some v => (v, c)
  | none =>
    let c1 := (getCli c).2
    (c1.nextId, { c1 with lazy_channel := some c1.nextId, nextId := c1.nextId + 1 })

/-- `self.sftp`: `self.cli.open_sftp()` on first access. -/
def getSftp (c : ConnCache) : Nat × ConnCache :=
  match c.lazy_sftp with
  | some v => (v, c)
  | none =>
    let c1 := (getCli c).2
    (c1.nextId, { c1 with lazy_sftp := some c1.nextId, nextId := c1.nextId + 1 })

/-- `self.pbm`: a fresh plumbum `SshMachine` unless `disable_rpyc`, in
which case the factory returns `None` (which `lazyprop` still caches). -/
def getPbm (c : ConnCache) : Option Nat × ConnCache :=
  match c.lazy_pbm with
  | some v => (v, c)
  | none =>
    if !c.disable_rpyc then
      (some c.nextId,
       { c with lazy_pbm := some (some c.nextId), nextId := c.nextId + 1 })
    else (none, { c with lazy_pbm := some none })

/-- `self.rpyc`: the bridge bootstrap (lines 137–185).  Any step raising
is caught by `except Exception` and the factory returns `None`, which
`lazyprop` caches.  Dependent lazy properties are touched exactly where
the body reads them: `self.sftp` at the upload, `self.cli` inside
`recv_exit_status`/`exec_command`, `self.pbm` at the final
`ssh_connect` call. -/
def getRpyc (c : ConnCache) : Option Nat × ConnCache :=
  match c.lazy_rpyc with
  | some v => (v, c)
  | none =>
    if !c.disable_rpyc then
      match c.env.tar with
      | .error _ => (none, { c with lazy_rpyc := some none })
      | .ok _ =>
        let c1 := (getSftp c).2
        match c1.env.put with
        | .error _ => (none, { c1 with lazy_rpyc := some none })
        | .ok _ =>
          let c2 := (getCli c1).2
          match c2.env.extract with
          | .error _ => (none, { c2 with lazy_rpyc := some none })
          | .ok _ =>
            match c2.env.launch with
            | .error _ => (none, { c2 with lazy_rpyc := some none })
            | .ok _ =>
              match c2.env.poll with
              | .error _ => (none, { c2 with lazy_rpyc := some none })
              | .ok _ =>
                match c2.env.fetch with
                | .error _ => (none, { c2 with lazy_rpyc := some none })
                | .ok _ =>
                  match c2.env.parsePort with
                  | .error _ => (none, { c2 with lazy_rpyc := some none })
                  | .ok _ =>
                    let c3 := (getPbm c2).2
                    match c3.env.sshConnect with
                    | .error _ => (none, { c3 with lazy_rpyc := some none })
                    | .ok _ =>
                      (some c3.nextId,
                       { c3 with lazy_rpyc := some (some c3.nextId),
                                 nextId := c3.nextId + 1 })
    else (none, { c with lazy_rpyc := some none })

/-! ## `Connection.disconnect` (lines 193–205)

```
if hasattr(self, '_lazy_cli'):  self.cli.close();  delattr(self, '_lazy_cli')
if hasattr(self, '_lazy_pbm'):  self.pbm.close();  delattr(self, '_lazy_pbm')
if hasattr(self, '_lazy_rpyc'): self.rpyc.close(); delattr(self, '_lazy_rpyc')
```

There is no `try`/`except`: an exception from a `close()` propagates at
once, skipping the `delattr` and every later `if`.  Closing a cached
`None` (`pbm`/`rpyc` when the bootstrap was disabled or failed) raises
`AttributeError` on `None.close()`.  Transport-level failures of the
three `close()` calls are injected through `CloseBehavior`.  The result
records, in order, which `close()` calls were attempted, the first
exception (if any), and the post-call cache. -/

inductive Res where
  | cli : Res
  | channel : Res
  | sftp : Res
  | pbm : Res
  | rpyc : Res
deriving Repr, DecidableEq

structure CloseBehavior where
  cliFails : Bool
  pbmFails : Bool
  rpycFails : Bool
deriving Repr, DecidableEq

structure DisconnectResult where
  attempts : List Res
  err : Option String
  state : ConnCache
deriving Repr, DecidableEq

def disconnectT (c : ConnCache) (b : CloseBehavior) : DisconnectResult :=
  -- if hasattr(self, '_lazy_cli')
  let step1 : List Res × Option String × ConnCache :=
    match c.lazy_cli with
    | none => ([], none, c)
    | some _ =>
      if b.cliFails then ([.cli], some "cli.close failed", c)
      else ([.cli], none, { c with lazy_cli := none })
  match step1 with
  | (a1, some e, c1) => ⟨a1, some e, c1⟩
  | (a1, none, c1) =>
    -- if hasattr(self, '_lazy_pbm')
    let step2 : List Res × Option String × ConnCache :=
      match c1.lazy_pbm with
      | none => ([], none, c1)
      | some v =>
        if v.isNone then ([.pbm], some "AttributeError: NoneType has no close", c1)
        else if b.pbmFails then ([.pbm], some "pbm.close failed", c1)
        else ([.pbm], none, { c1 with lazy_pbm := none })
    match step2 with
    | (a2, some e, c2) => ⟨a1 ++ a2, some e, c2⟩
    | (a2, none, c2) =>
      -- if hasattr(self, '_lazy_rpyc')
      let step3 : List Res × Option String × ConnCache :=
        match c2.lazy_rpyc with
        | none => ([], none, c2)
        | some v =>
          if v.isNone then ([.rpyc], some "AttributeError: NoneType has no close", c2)
          else if b.rpycFails then ([.rpyc], some "rpyc.close failed", c2)
          else ([.rpyc], none, { c2 with lazy_rpyc := none })
      match step3 with
      | (a3, e3, c3) => ⟨a1 ++ a2 ++ a3, e3, c3⟩

/-- The no-injected-failure behaviour: every `close()` succeeds at the
transport level. -/
def noFail : CloseBehavior := ⟨false, false, false⟩

/-- `Connection.disconnect()` when no `close()` raises. -/
def disconnect (c : ConnCache) : DisconnectResult := disconnectT c noFail

/-- Did an `Except`-modelled Python step raise? -/
def isErrE {α : Type} : Except String α → Bool
  | .error _ => true
  | .ok _ => false

/-- Some step of the `rpyc` bootstrap body raises. -/
def someBootstrapStepFails (e : BootstrapEnv) : Bool :=
  isErrE e.tar || isErrE e.put || isErrE e.extract || isErrE e.launch ||
  isErrE e.poll || isErrE e.fetch || isErrE e.parsePort || isErrE e.sshConnect

/-! ## The bootstrap's random identifier and temp paths (lines 144–150)

```
rnd_id = ''.join(random.choice(string.ascii_lowercase) for x in range(10))
pid_filename = "/tmp/%s.pid" % rnd_id
pid_dest_filename = "/tmp/%s%s.pid" % (rnd_id, rnd_id)
rnd_filename = "/tmp/" + rnd_id + ".tar.gz"
rnd_dest_filename = "/tmp/" + rnd_id + rnd_id + ".tar.gz"
```

`random.choice` is modelled by the choice function giving, for each of the
10 positions, the index drawn from the 26-character alphabet. -/

def ascii_lowercase : String := "abcdefghijklmnopqrstuvwxyz"

def rnd_id (choice : Fin 10 → Fin 26) : String :=
  String.mk ((List.finRange 10).map fun i =>
    ascii_lowercase.data.get (Fin.cast (by decide) (choice i)))

def pid_filename (rid : String) : String := "/tmp/" ++ rid ++ ".pid"

def pid_dest_filename (rid : String) : String := "/tmp/" ++ rid ++ rid ++ ".pid"

def rnd_filename (rid : String) : String := "/tmp/" ++ rid ++ ".tar.gz"

def rnd_dest_filename (rid : String) : String := "/tmp/" ++ rid ++ rid ++ ".tar.gz"

/-- The number of distinct values the identifier generator can draw. -/
def rnd_id_space : Nat := ascii_lowercase.data.length ^ 10

/-! ## Concrete states used by counterexamples and witnesses -/

/-- A bootstrap environment in which every external step succeeds. -/
def envOK : BootstrapEnv :=
  { tar := .ok (), put := .ok (), extract := .ok (some 0), launch := .ok (),
    poll := .ok (some 0), fetch := .ok (), parsePort := .ok 18812,
    sshConnect := .ok () }

/-- A bootstrap environment where the archive upload (`sftp.put`) raises. -/
def envPutFails : BootstrapEnv :=
  { envOK with put := .error "IOError: upload failed" }

/-- A cache in which all five lazy resources are cached with live (non-`None`)
values, as after a fully successful bootstrap: ids record creation order
`cli = 0`, `channel = 1`, `sftp = 2`, `pbm = 3`, `rpyc = 4`. -/
def allCached : ConnCache :=
  { disable_rpyc := false, env := envOK,
    lazy_cli := some 0, lazy_channel := some 1, lazy_sftp := some 2,
    lazy_pbm := some (some 3), lazy_rpyc := some (some 4), nextId := 5 }

/-! ## Helper lemmas -/

theorem strAppendAssoc (a b c : String) : a ++ b ++ c = a ++ (b ++ c) := by
  apply String.ext
  simp [String.data_append]

/-- The inner `while count < timeout` loop of `expect_list`, when no pattern
ever `re.match`es the growing buffer, raises `ExpectFailed` carrying the
initial buffer followed by everything received, in arrival order. -/
theorem expectListFrom_timeout {α : Type} (ticks : List (Option String))
    (pats : List (Regex × α)) :
    ∀ fuel count result,
      (∀ j, j < fuel →
        findFirstMatch pats (result ++ accumFrom ticks count (j + 1)) = none) →
      expectListFrom ticks pats count fuel result =
        .error (result ++ accumFrom ticks count fuel) := by
  intro fuel
  induction fuel with
  | zero =>
    intro count result _
    rw [accumFrom, String.append_empty]
    rfl
  | succ f ih =>
    intro count result h
    have h0 := h 0 (Nat.succ_pos f)
    rw [accumFrom, accumFrom, String.append_empty] at h0
    rw [expectListFrom]
    simp only [h0]
    have hrec := ih (count + 1) (result ++ ((ticks.getD count none).getD ""))
      (fun j hj => by
        have := h (j + 1) (Nat.succ_lt_succ hj)
        rw [accumFrom] at this
        rwa [strAppendAssoc])
    rw [hrec, accumFrom, strAppendAssoc]

/-- `exit_status_ready()` is never observed true: the deadline elapses and
the Python return value is `None`. -/
theorem recvExitLoop_none (events : List ReadEvent) :
    ∀ fuel i acc,
      (∀ j, j < fuel → (events.getD (i + j) .noData).status = none) →
      (recvExitLoop events i fuel acc).1 = none := by
  intro fuel
  induction fuel with
  | zero => intro i acc _; rfl
  | succ f ih =>
    intro i acc h
    have h0 := h 0 (Nat.succ_pos f)
    rw [Nat.add_zero] at h0
    rw [recvExitLoop]
    cases he : events.getD i .noData with
    | noData =>
      exact ih (i + 1) acc (fun j hj => by
        have := h (j + 1) (Nat.succ_lt_succ hj)
        rwa [show i + (j + 1) = i + 1 + j by omega] at this)
    | data s ready =>
      rw [he, ReadEvent.status] at h0
      subst h0
      exact ih (i + 1) (acc ++ s) (fun j hj => by
        have := h (j + 1) (Nat.succ_lt_succ hj)
        rwa [show i + (j + 1) = i + 1 + j by omega] at this)

/-- The first iteration that observes a posted exit status returns it at
once, with exactly the stdout accumulated through that iteration. -/
theorem recvExitLoop_found (events : List ReadEvent) :
    ∀ fuel i acc k st, k < fuel →
      (events.getD (i + k) .noData).status = some st →
      (∀ j, j < k → (events.getD (i + j) .noData).status = none) →
      recvExitLoop events i fuel acc =
        (some st, acc ++ stdoutFrom events i (k + 1)) := by
  intro fuel
  induction fuel with
  | zero => intro i acc k st hk; exact absurd hk (Nat.not_lt_zero k)
  | succ f ih =>
    intro i acc k st hk hst hnone
    rw [recvExitLoop]
    cases k with
    | zero =>
      rw [Nat.add_zero] at hst
      cases he : events.getD i .noData with
      | noData => rw [he, ReadEvent.status] at hst; exact absurd hst (by simp)
      | data s ready =>
        rw [he, ReadEvent.status] at hst
        subst hst
        rw [stdoutFrom, stdoutFrom, he, ReadEvent.bytes, String.append_empty]
    | succ k' =>
      have h0 := hnone 0 (Nat.succ_pos k')
      rw [Nat.add_zero] at h0
      cases he : events.getD i .noData with
      | noData =>
        rw [stdoutFrom, he, ReadEvent.bytes, String.empty_append]
        exact ih (i + 1) acc k' st (Nat.lt_of_succ_lt_succ hk)
          (by rwa [show i + 1 + k' = i + (k' + 1) by omega])
          (fun j hj => by
            have := hnone (j + 1) (Nat.succ_lt_succ hj)
            rwa [show i + (j + 1) = i + 1 + j by omega] at this)
      | data s ready =>
        rw [he, ReadEvent.status] at h0
        subst h0
        rw [stdoutFrom, he, ReadEvent.bytes, ← strAppendAssoc]
        exact ih (i + 1) (acc ++ s) k' st (Nat.lt_of_succ_lt_succ hk)
          (by rwa [show i + 1 + k' = i + (k' + 1) by omega])
          (fun j hj => by
            have := hnone (j + 1) (Nat.succ_lt_succ hj)
            rwa [show i + (j + 1) = i + 1 + j by omega] at this)

/-! ## Claim C3 -/

/-- C3 counterexample: with patterns `[("foo", "A"), ("bar", "B")]` and a
single tick of input `"xbarx"`, `expect_list` does **not** return `"B"`:
`re.match` anchors each pattern at the start of the accumulated buffer, so
`"bar"` never matches `"xbarx"` and the run times out, raising
`ExpectFailed("xbarx")`. -/
theorem claim_C3_counterexample :
    expect_list [some "xbarx"] [(lit "foo", "A"), (lit "bar", "B")] 10 ≠
      Except.ok "B" ∧
    expect_list [some "xbarx"] [(lit "foo", "A"), (lit "bar", "B")] 10 =
      Except.error "xbarx" := by
  decide

/-- C3 (amended): patterns are evaluated in the order given against the
entire accumulated buffer, but each match is anchored at the buffer's start
(Python `re.match`), so a pattern wins only when it matches a prefix.
Given `[("foo", "A"), ("bar", "B")]` and a single tick of input `"barx"`,
the engine returns `"B"` on the very first tick (already with
`timeout = 1`); when several patterns match, the first in list order wins;
`"bar"` matches the prefix of `"barx"` but matches nowhere in `"xbarx"` as
far as `re.match` is concerned — matching anywhere in the buffer needs the
explicit `".*bar.*"` wrapping that `Expect.expect` builds. -/
theorem claim_C3_theorem :
    expect_list [some "barx"] [(lit "foo", "A"), (lit "bar", "B")] 1 =
      Except.ok "B" ∧
    expect_list [some "barx"] [(lit "foo", "A"), (lit "bar", "B")] 10 =
      Except.ok "B" ∧
    expect_list [some "barx"] [(lit "ba", "A"), (lit "bar", "B")] 10 =
      Except.ok "A" ∧
    reMatch (lit "bar") "barx" = true ∧
    reMatch (lit "bar") "xbarx" = false ∧
    reMatch (.cat dotStar (.cat (lit "bar") dotStar)) "xbarx" = true := by
  decide

/-! ## Claim C7 -/

/-- C7: when no pattern matches the accumulated buffer on any tick of the
run, `expect_list` raises `ExpectFailed` whose payload is exactly the
concatenation, in arrival order, of everything received across all the
run's ticks. -/
theorem claim_C7_theorem {α : Type} (ticks : List (Option String))
    (pats : List (Regex × α)) (timeout : Nat)
    (h : ∀ n, n < timeout →
      findFirstMatch pats (accumFrom ticks 0 (n + 1)) = none) :
    expect_list ticks pats timeout = .error (accumFrom ticks 0 timeout) := by
  have := expectListFrom_timeout ticks pats timeout 0 ""
    (fun j hj => by rw [String.empty_append]; exact h j hj)
  rwa [String.empty_append] at this

/-- C7 witness: a three-tick run (`"ab"`, a no-data tick, `"cd"`) in which
the single pattern never matches fails with exactly `"abcd"`. -/
theorem claim_C7_witness :
    expect_list [some "ab", none, some "cd"] [(lit "zz", "Z")] 3 =
      Except.error "abcd" :=
  (claim_C7_theorem [some "ab", none, some "cd"] [(lit "zz", "Z")] 3
    (by decide)).trans (by decide)

/-! ## Claim C6 -/

/-- C6: `recv_exit_status` (1) returns the distinguished "unknown" status —
Python `None`, neither an exception nor `0` — when no exit status is
observed within the deadline, and (2) stops the read loop the instant an
iteration observes a posted exit status, returning that status with the
stdout accumulated up to that very iteration. -/
theorem claim_C6_theorem (events : List ReadEvent) (timeout : Nat) :
    ((∀ j, j < timeout → (events.getD j .noData).status = none) →
      (recv_exit_status events timeout).1 = none) ∧
    (∀ k st, k < timeout →
      (events.getD k .noData).status = some st →
      (∀ j, j < k → (events.getD j .noData).status = none) →
      recv_exit_status events timeout =
        (some st, stdoutFrom events 0 (k + 1))) := by
  constructor
  · intro h
    exact recvExitLoop_none events timeout 0 ""
      (fun j hj => by rw [Nat.zero_add]; exact h j hj)
  · intro k st hk hst hnone
    have := recvExitLoop_found events timeout 0 "" k st hk
      (by rwa [Nat.zero_add]) (fun j hj => by rw [Nat.zero_add]; exact hnone j hj)
    rwa [String.empty_append] at this

/-- C6 witness: a stream that never posts a status returns `none` with
deadline 1, and a stream posting status `0` on its third iteration stops
there, returning `(some 0, "xy")` although the deadline allows 5. -/
theorem claim_C6_witness :
    (recv_exit_status [ReadEvent.noData, ReadEvent.data "x" none] 1).1 = none ∧
    recv_exit_status
      [ReadEvent.noData, ReadEvent.data "x" none, ReadEvent.data "y" (some 0)]
      5 = (some 0, "xy") := by
  constructor
  · exact (claim_C6_theorem [ReadEvent.noData, ReadEvent.data "x" none] 1).1
      (by decide)
  · exact ((claim_C6_theorem
      [ReadEvent.noData, ReadEvent.data "x" none, ReadEvent.data "y" (some 0)]
      5).2 2 0 (by decide) (by decide) (by decide)).trans (by decide)

/-! ## Claims C1 and C2 (disconnect) -/

/-- With `cli`, `pbm` and `rpyc` cached with live values, `disconnect()`
closes exactly those three, in that order, and deletes their cache slots;
`channel` and `sftp` are untouched. -/
theorem disconnect_all_cached (c : ConnCache) (i p r : Nat)
    (hcli : c.lazy_cli = some i) (hpbm : c.lazy_pbm = some (some p))
    (hrpyc : c.lazy_rpyc = some (some r)) :
    disconnect c = ⟨[.cli, .pbm, .rpyc], none,
      { c with lazy_cli := none, lazy_pbm := none, lazy_rpyc := none }⟩ := by
  simp [disconnect, disconnectT, noFail, hcli, hpbm, hrpyc]

/-- C1 counterexample: on a connection with all resource kinds cached
(`allCached`), `disconnect()` closes the transport client **first**, then
the plumbum machine, then the bridge handle — the exact reverse of the
claimed bridge-first order — and never closes the file-transfer channel or
the shell channel at all. -/
theorem claim_C1_counterexample :
    (disconnect allCached).attempts = [Res.cli, Res.pbm, Res.rpyc] ∧
    (disconnect allCached).attempts ≠ [Res.rpyc, Res.sftp, Res.channel, Res.cli] ∧
    Res.sftp ∉ (disconnect allCached).attempts ∧
    Res.channel ∉ (disconnect allCached).attempts := by
  decide

/-- C1 (amended): for every connection whose transport client, plumbum
machine and bridge handle are cached with live values, `disconnect()`
closes them in creation order — transport client first, then the plumbum
machine, then the bridge handle — clearing exactly those three cache
slots; the file-transfer channel and the shell channel are never closed
and their cache entries survive the disconnect. -/
theorem claim_C1_theorem (c : ConnCache) (i p r : Nat)
    (hcli : c.lazy_cli = some i) (hpbm : c.lazy_pbm = some (some p))
    (hrpyc : c.lazy_rpyc = some (some r)) :
    (disconnect c).attempts = [Res.cli, Res.pbm, Res.rpyc] ∧
    (disconnect c).err = none ∧
    (disconnect c).state.lazy_cli = none ∧
    (disconnect c).state.lazy_pbm = none ∧
    (disconnect c).state.lazy_rpyc = none ∧
    (disconnect c).state.lazy_channel = c.lazy_channel ∧
    (disconnect c).state.lazy_sftp = c.lazy_sftp := by
  rw [disconnect_all_cached c i p r hcli hpbm hrpyc]
  exact ⟨rfl, rfl, rfl, rfl, rfl, rfl, rfl⟩

/-- C1 witness: the amended statement instantiated at `allCached`. -/
theorem claim_C1_witness :
    (disconnect allCached).attempts = [Res.cli, Res.pbm, Res.rpyc] ∧
    (disconnect allCached).state.lazy_sftp = allCached.lazy_sftp := by
  have h := claim_C1_theorem allCached 0 3 4 rfl rfl rfl
  exact ⟨h.1, h.2.2.2.2.2.2⟩

/-- C2 counterexample: with all resources cached and `cli.close()` raising,
`disconnect()` attempts no close beyond the first one — the cached plumbum
machine and bridge handle are both skipped, contradicting the claim that
every remaining cached resource's close is still attempted. -/
theorem claim_C2_counterexample :
    allCached.lazy_pbm.isSome ∧ allCached.lazy_rpyc.isSome ∧
    (disconnectT allCached ⟨true, false, false⟩).attempts = [Res.cli] ∧
    Res.pbm ∉ (disconnectT allCached ⟨true, false, false⟩).attempts ∧
    Res.rpyc ∉ (disconnectT allCached ⟨true, false, false⟩).attempts := by
  decide

/-- C2 (amended): a failure closing one cached resource propagates out of
`disconnect()` immediately: no later cached resource's close is attempted,
and the cache is left exactly as it was at the failure (the failed
resource itself stays cached, since the `delattr` after its `close()` is
skipped).  Stated for a failure at the first close (`cli`) and at the
second close (`pbm`). -/
theorem claim_C2_theorem (c : ConnCache) (b : CloseBehavior) :
    (∀ i, c.lazy_cli = some i → b.cliFails = true →
      disconnectT c b = ⟨[Res.cli], some "cli.close failed", c⟩) ∧
    (∀ i p, c.lazy_cli = some i → c.lazy_pbm = some (some p) →
      b.cliFails = false → b.pbmFails = true →
      disconnectT c b =
        ⟨[Res.cli, Res.pbm], some "pbm.close failed",
          { c with lazy_cli := none }⟩) := by
  constructor
  · intro i hcli hfail
    simp [disconnectT, hcli, hfail]
  · intro i p hcli hpbm hok hfail
    simp [disconnectT, hcli, hpbm, hok, hfail]

/-- C2 witness: both positions of the amended statement exercised on
`allCached`. -/
theorem claim_C2_witness :
    disconnectT allCached ⟨true, false, false⟩ =
      ⟨[Res.cli], some "cli.close failed", allCached⟩ ∧
    disconnectT allCached ⟨false, true, false⟩ =
      ⟨[Res.cli, Res.pbm], some "pbm.close failed",
        { allCached with lazy_cli := none }⟩ := by
  constructor
  · exact (claim_C2_theorem allCached ⟨true, false, false⟩).1 0 rfl rfl
  · exact (claim_C2_theorem allCached ⟨false, true, false⟩).2 0 3 rfl rfl rfl rfl

/-! ## Claim C10 (constructor without a recognized key pair) -/

/-- C10: constructing a `Connection` from a parameter dict containing
neither the `private_hostname`/`public_hostname` pair nor the
`public_dns_name`/`private_ip_address` pair completes without error (the
constructor is total and checks nothing about the recognized pairs), but
sets none of the three address attributes — so any later attempt to open
the transport fails with an `AttributeError` when the `cli` factory reads
`self.private_hostname`. -/
theorem claim_C10_theorem (p : InstanceParams) (user : String)
    (kf : Option String) (tmo : Nat) (osh dr : Bool)
    (h1 : ¬(p.private_hostname.isSome ∧ p.public_hostname.isSome))
    (h2 : ¬(p.public_dns_name.isSome ∧ p.private_ip_address.isSome)) :
    (connectionInit (.dict p) user kf tmo osh dr).hostname = none ∧
    (connectionInit (.dict p) user kf tmo osh dr).private_hostname = none ∧
    (connectionInit (.dict p) user kf tmo osh dr).public_hostname = none ∧
    cliConnectTarget (connectionInit (.dict p) user kf tmo osh dr) =
      .error "AttributeError: private_hostname" := by
  obtain ⟨ph, pub, dns, ip, un, kfn⟩ := p
  simp only [Option.isSome] at h1 h2
  cases ph <;> cases pub <;> cases dns <;> cases ip <;>
    simp_all [connectionInit, cliConnectTarget]

/-- C10 witness: the empty parameter dict. -/
theorem claim_C10_witness :
    (connectionInit (.dict ⟨none, none, none, none, none, none⟩)
      "root" none 10 false false).hostname = none ∧
    cliConnectTarget (connectionInit (.dict ⟨none, none, none, none, none, none⟩)
      "root" none 10 false false) = .error "AttributeError: private_hostname" := by
  have h := claim_C10_theorem ⟨none, none, none, none, none, none⟩
    "root" none 10 false false (by simp) (by simp)
  exact ⟨h.1, h.2.2.2⟩

/-! ## Claim C9 (idempotence of cached access) -/

theorem getChannel_of_cached (c : ConnCache) (v : Nat)
    (h : c.lazy_channel = some v) : getChannel c = (v, c) := by
  simp [getChannel, h]

theorem getSftp_of_cached (c : ConnCache) (v : Nat)
    (h : c.lazy_sftp = some v) : getSftp c = (v, c) := by
  simp [getSftp, h]

theorem getCli_of_cached (c : ConnCache) (v : Nat)
    (h : c.lazy_cli = some v) : getCli c = (v, c) := by
  simp [getCli, h]

theorem getPbm_of_cached (c : ConnCache) (v : Option Nat)
    (h : c.lazy_pbm = some v) : getPbm c = (v, c) := by
  simp [getPbm, h]

theorem getRpyc_of_cached (c : ConnCache) (v : Option Nat)
    (h : c.lazy_rpyc = some v) : getRpyc c = (v, c) := by
  simp [getRpyc, h]

/-- After any first access the channel's value sits in the cache slot. -/
theorem getChannel_caches (c : ConnCache) :
    ((getChannel c).2).lazy_channel = some (getChannel c).1 := by
  cases h : c.lazy_channel <;> simp [getChannel, h]

theorem getSftp_caches (c : ConnCache) :
    ((getSftp c).2).lazy_sftp = some (getSftp c).1 := by
  cases h : c.lazy_sftp <;> simp [getSftp, h]

theorem getCli_caches (c : ConnCache) :
    ((getCli c).2).lazy_cli = some (getCli c).1 := by
  cases h : c.lazy_cli <;> simp [getCli, h]

theorem getPbm_caches (c : ConnCache) :
    ((getPbm c).2).lazy_pbm = some (getPbm c).1 := by
  cases h : c.lazy_pbm with
  | some v => simp [getPbm, h]
  | none => cases hd : c.disable_rpyc <;> simp [getPbm, h, hd]

/-- `lazyprop` caches the `rpyc` factory's value on every exit path of the
bootstrap — success, degraded `None`, and disabled. -/
theorem getRpyc_caches (c : ConnCache) :
    ((getRpyc c).2).lazy_rpyc = some (getRpyc c).1 := by
  cases h : c.lazy_rpyc with
  | some v => simp [getRpyc, h]
  | none =>
    cases hd : c.disable_rpyc with
    | true => simp [getRpyc, h, hd]
    | false =>
      rw [getRpyc]
      rw [h, hd]
      simp only [Bool.not_false, if_true]
      cases c.env.tar with
      | error e => rfl
      | ok u =>
        cases ((getSftp c).2).env.put with
        | error e => rfl
        | ok u =>
          cases ((getCli (getSftp c).2).2).env.extract with
          | error e => rfl
          | ok u =>
            cases ((getCli (getSftp c).2).2).env.launch with
            | error e => rfl
            | ok u =>
              cases ((getCli (getSftp c).2).2).env.poll with
              | error e => rfl
              | ok u =>
                cases ((getCli (getSftp c).2).2).env.fetch with
                | error e => rfl
                | ok u =>
                  cases ((getCli (getSftp c).2).2).env.parsePort with
                  | error e => rfl
                  | ok u =>
                    cases ((getPbm (getCli (getSftp c).2).2).2).env.sshConnect with
                    | error e => rfl
                    | ok u => rfl

/-- C9: before any disconnect, a second access to the shell channel, the
file-transfer channel or the bridge handle returns the identical cached
instance and leaves the connection state untouched — the factory runs at
most once per resource between construction (or a disconnect) and the next
disconnect. -/
theorem claim_C9_theorem (c : ConnCache) :
    getChannel ((getChannel c).2) = ((getChannel c).1, (getChannel c).2) ∧
    getSftp ((getSftp c).2) = ((getSftp c).1, (getSftp c).2) ∧
    getRpyc ((getRpyc c).2) = ((getRpyc c).1, (getRpyc c).2) :=
  ⟨getChannel_of_cached _ _ (getChannel_caches c),
   getSftp_of_cached _ _ (getSftp_caches c),
   getRpyc_of_cached _ _ (getRpyc_caches c)⟩

/-! ## Claim C8 (bootstrap degradation) -/

theorem getCli_env (c : ConnCache) : ((getCli c).2).env = c.env := by
  cases h : c.lazy_cli <;> simp [getCli, h]

theorem getSftp_env (c : ConnCache) : ((getSftp c).2).env = c.env := by
  cases h : c.lazy_sftp <;> simp [getSftp, h, getCli_env]

theorem getPbm_env (c : ConnCache) : ((getPbm c).2).env = c.env := by
  cases h : c.lazy_pbm with
  | some v => simp [getPbm, h]
  | none => cases hd : c.disable_rpyc <;> simp [getPbm, h, hd]

/-- C8: on a connection whose bridge handle is not yet cached and whose
bootstrap is enabled, if **any** step of the bridge bootstrap raises (the
archive build, the upload, the extraction, the listener launch, the
sentinel poll, the sentinel download, the port parse, or the final
connect), the `except Exception` catch converts it into a bridge handle of
`None`: no exception propagates to the caller (the accessor is total and
returns), and the connection caches the degraded `None` handle and remains
usable. -/
theorem claim_C8_theorem (c : ConnCache) (hfresh : c.lazy_rpyc = none)
    (hd : c.disable_rpyc = false)
    (hfail : someBootstrapStepFails c.env = true) :
    (getRpyc c).1 = none ∧ ((getRpyc c).2).lazy_rpyc = some none := by
  rw [someBootstrapStepFails] at hfail
  rw [getRpyc, hfresh, hd]
  simp only [Bool.not_false, if_true]
  cases ht : c.env.tar with
  | error e => exact ⟨rfl, rfl⟩
  | ok u1 =>
    rw [getSftp_env]
    cases hp : c.env.put with
    | error e => exact ⟨rfl, rfl⟩
    | ok u2 =>
      rw [getCli_env, getSftp_env]
      cases hex : c.env.extract with
      | error e => exact ⟨rfl, rfl⟩
      | ok u3 =>
        cases hla : c.env.launch with
        | error e => exact ⟨rfl, rfl⟩
        | ok u4 =>
          cases hpo : c.env.poll with
          | error e => exact ⟨rfl, rfl⟩
          | ok u5 =>
            cases hfe : c.env.fetch with
            | error e => exact ⟨rfl, rfl⟩
            | ok u6 =>
              cases hpp : c.env.parsePort with
              | error e => exact ⟨rfl, rfl⟩
              | ok u7 =>
                rw [getPbm_env, getCli_env, getSftp_env]
                cases hsc : c.env.sshConnect with
                | error e => exact ⟨rfl, rfl⟩
                | ok u8 =>
                  rw [ht, hp, hex, hla, hpo, hfe, hpp, hsc] at hfail
                  simp [isErrE] at hfail

/-- C8 witness: a failed archive upload on a fresh cache yields a `None`
bridge handle. -/
theorem claim_C8_witness :
    (getRpyc (initCache false envPutFails)).1 = none :=
  (claim_C8_theorem (initCache false envPutFails) rfl rfl (by decide)).1

/-! ## Claim C4 (state across disconnect) -/

theorem getCli_nextId (c : ConnCache) : c.nextId ≤ ((getCli c).2).nextId := by
  cases h : c.lazy_cli <;> simp [getCli, h]

theorem getSftp_nextId (c : ConnCache) : c.nextId ≤ ((getSftp c).2).nextId := by
  cases h : c.lazy_sftp with
  | some v => simp [getSftp, h]
  | none =>
    have := getCli_nextId c
    simp [getSftp, h]
    omega

theorem getPbm_nextId (c : ConnCache) : c.nextId ≤ ((getPbm c).2).nextId := by
  cases h : c.lazy_pbm with
  | some v => simp [getPbm, h]
  | none => cases hd : c.disable_rpyc <;> simp [getPbm, h, hd]

/-- A fresh (uncached) bridge access yields either the degraded `None`
handle or a brand-new instance whose id is at least the current fresh-id
counter — never an id handed out earlier. -/
theorem getRpyc_fresh (c : ConnCache) (h : c.lazy_rpyc = none) :
    (getRpyc c).1 = none ∨
    ∃ v, (getRpyc c).1 = some v ∧ c.nextId ≤ v := by
  rw [getRpyc, h]
  cases hd : c.disable_rpyc with
  | true => simp
  | false =>
    simp only [Bool.not_false, if_true]
    cases ht : c.env.tar with
    | error e => left; rfl
    | ok u1 =>
      cases hp : ((getSftp c).2).env.put with
      | error e => left; rfl
      | ok u2 =>
        cases hex : ((getCli (getSftp c).2).2).env.extract with
        | error e => left; rfl
        | ok u3 =>
          cases hla : ((getCli (getSftp c).2).2).env.launch with
          | error e => left; rfl
          | ok u4 =>
            cases hpo : ((getCli (getSftp c).2).2).env.poll with
            | error e => left; rfl
            | ok u5 =>
              cases hfe : ((getCli (getSftp c).2).2).env.fetch with
              | error e => left; rfl
              | ok u6 =>
                cases hpp : ((getCli (getSftp c).2).2).env.parsePort with
                | error e => left; rfl
                | ok u7 =>
                  cases hsc : ((getPbm (getCli (getSftp c).2).2).2).env.sshConnect with
                  | error e => left; rfl
                  | ok u8 =>
                    right
                    refine ⟨_, rfl, ?_⟩
                    have h1 := getSftp_nextId c
                    have h2 := getCli_nextId (getSftp c).2
                    have h3 := getPbm_nextId (getCli (getSftp c).2).2
                    omega

/-- C4 counterexample: on `allCached`, after `disconnect()` the next access
to the file-transfer channel returns id `2` — the very instance cached
before the disconnect — and the shell-channel access returns the old id
`1`; the claim that no pre-disconnect instance is ever returned again is
false for these two resource kinds. -/
theorem claim_C4_counterexample :
    allCached.lazy_sftp = some 2 ∧
    (getSftp (disconnect allCached).state).1 = 2 ∧
    allCached.lazy_channel = some 1 ∧
    (getChannel (disconnect allCached).state).1 = 1 := by
  decide

/-- C4 (amended): after `disconnect()` on a fully-cached connection, the
transport client, the plumbum machine and the bridge handle are recreated
as brand-new instances (their cache slots were cleared, and a fresh access
never returns a pre-disconnect id); but the shell channel and the
file-transfer channel — whose cache slots `disconnect()` does not clear —
return exactly the instance cached before the disconnect. -/
theorem claim_C4_theorem (c : ConnCache) (i ch s p r : Nat)
    (hcli : c.lazy_cli = some i) (hch : c.lazy_channel = some ch)
    (hsftp : c.lazy_sftp = some s) (hpbm : c.lazy_pbm = some (some p))
    (hrpyc : c.lazy_rpyc = some (some r)) (hd : c.disable_rpyc = false)
    (hi : i < c.nextId) (hp : p < c.nextId) (hr : r < c.nextId) :
    (getCli (disconnect c).state).1 ≠ i ∧
    (getPbm (disconnect c).state).1 ≠ some p ∧
    (getRpyc (disconnect c).state).1 ≠ some r ∧
    (getChannel (disconnect c).state).1 = ch ∧
    (getSftp (disconnect c).state).1 = s := by
  rw [disconnect_all_cached c i p r hcli hpbm hrpyc]
  refine ⟨?_, ?_, ?_, ?_, ?_⟩
  · simp only [getCli]
    simp
    omega
  · simp only [getPbm]
    simp [hd]
    omega
  · have hfree := getRpyc_fresh
      (ConnCache.mk c.disable_rpyc c.env none c.lazy_channel c.lazy_sftp
        none none c.nextId) rfl
    rcases hfree with h1 | ⟨v, h1, hv⟩
    · rw [h1]; simp
    · rw [h1]
      have hv2 : c.nextId ≤ v := hv
      simp only [ne_eq, Option.some.injEq]
      omega
  · simp [getChannel, hch]
  · simp [getSftp, hsftp]

/-- C4 witness: the amended statement at `allCached` (ids `0`–`4`,
counter `5`). -/
theorem claim_C4_witness :
    (getCli (disconnect allCached).state).1 ≠ 0 ∧
    (getSftp (disconnect allCached).state).1 = 2 := by
  have h := claim_C4_theorem allCached 0 1 2 3 4 rfl rfl rfl rfl rfl rfl
    (by decide) (by decide) (by decide)
  exact ⟨h.1, h.2.2.2.2⟩

/-! ## Claim C5 (the bootstrap's random identifier) -/

theorem ascii_lowercase_nodup : ascii_lowercase.data.Nodup := by decide

/-- Distinct draws give distinct identifiers, so the identifier sample
space is exactly the space of draws. -/
theorem rnd_id_injective : Function.Injective rnd_id := by
  intro a b h
  have hdata := congrArg String.data h
  rw [rnd_id, rnd_id] at hdata
  have hdata2 : ((List.finRange 10).map fun i =>
      ascii_lowercase.data.get (Fin.cast (by decide) (a i))) =
      ((List.finRange 10).map fun i =>
      ascii_lowercase.data.get (Fin.cast (by decide) (b i))) := hdata
  funext i
  have hpt := List.map_inj_left.mp hdata2 i (List.mem_finRange i)
  have hfin := (List.Nodup.get_inj_iff ascii_lowercase_nodup).mp hpt
  have hval := congrArg Fin.val hfin
  simp only [Fin.coe_cast] at hval
  exact Fin.ext hval

/-- C5 counterexample: the identifier is drawn from `string.ascii_lowercase`
alone — 26 letters, no digits — so the sample space is `26 ^ 10`, strictly
below the claimed `~36 ^ 10` lower bound. -/
theorem claim_C5_counterexample :
    rnd_id_space = 26 ^ 10 ∧ rnd_id_space < 36 ^ 10 := by
  decide

/-- C5 (amended): the bootstrap's random identifier is a lowercase
*alphabetic* string of fixed length 10; its sample space is exactly
`26 ^ 10` (distinct draws give distinct identifiers, and there are
`26 ^ 10` draws) — not the claimed `≥ ~36 ^ 10` — and every temporary
remote path the bootstrap creates (local and remote archive names,
sentinel file names) embeds the identifier. -/
theorem claim_C5_theorem :
    Function.Injective rnd_id ∧
    (∀ choice, (rnd_id choice).length = 10 ∧
      ∀ ch ∈ (rnd_id choice).data, ch ∈ ascii_lowercase.data) ∧
    rnd_id_space = 26 ^ 10 ∧
    Fintype.card (Fin 10 → Fin 26) = rnd_id_space ∧
    (∀ rid : String,
      (∃ a b, rnd_filename rid = a ++ rid ++ b) ∧
      (∃ a b, rnd_dest_filename rid = a ++ rid ++ b) ∧
      (∃ a b, pid_filename rid = a ++ rid ++ b) ∧
      (∃ a b, pid_dest_filename rid = a ++ rid ++ b)) := by
  refine ⟨rnd_id_injective, ?_, by decide, ?_, ?_⟩
  · intro choice
    constructor
    · rw [rnd_id]
      simp [String.length_mk, List.length_map, List.length_finRange]
    · intro ch hch
      rw [rnd_id] at hch
      have hch2 : ch ∈ (List.finRange 10).map fun i =>
          ascii_lowercase.data.get (Fin.cast (by decide) (choice i)) := hch
      rcases List.mem_map.mp hch2 with ⟨i, _, rfl⟩
      exact List.get_mem _ _ _
  · rw [show rnd_id_space = 26 ^ 10 by decide]
    simp [Fintype.card_fun]
  · intro rid
    exact ⟨⟨"/tmp/", ".tar.gz", rfl⟩, ⟨"/tmp/" ++ rid, ".tar.gz", rfl⟩,
      ⟨"/tmp/", ".pid", rfl⟩, ⟨"/tmp/" ++ rid, ".pid", rfl⟩⟩

/-- C5 witness: the all-`'a'` draw has length 10 and stays inside the
lowercase alphabet. -/
theorem claim_C5_witness :
    (rnd_id (fun _ => 0)).length = 10 ∧ 'a' ∈ ascii_lowercase.data :=
  ⟨(claim_C5_theorem.2.1 (fun _ => 0)).1,
   (claim_C5_theorem.2.1 (fun _ => 0)).2 'a' (by decide)⟩

end Patchwork
